import Mathlib

/-!
# CAENUSBdrvB 1.5.1: linkage descriptor and driver core

Part I embeds `CAENUSBdrvB.mod.c`, the generated linkage descriptor of the
driver: the `____versions` table of imported kernel symbols and the four
`MODULE_ALIAS` strings.

Part II models the driver core (transfer channel, user bridge, device
context, session handle, lifecycle manager).  The driver's own C file is not
part of the source tree, so every definition of Part II is written from the
design document and says so in its doc comment.
-/

namespace CAENUSBdrvB

/-! ## Part I: the linkage descriptor `CAENUSBdrvB.mod.c` -/

/-- One row of the `__versions` section: a CRC and the name of an imported symbol. -/
structure modversion_info where
  crc : Nat
  name : String
deriving DecidableEq, Repr

/-- The table `____versions[]` of `CAENUSBdrvB.mod.c`, rows in source order. -/
def ____versions : List modversion_info :=
  [ ⟨0x683cfe8d, "module_layout"⟩,
    ⟨0xa92ce54c, "usb_deregister"⟩,
    ⟨0x6957d126, "usb_register_driver"⟩,
    ⟨0x1bbd1acd, "usb_control_msg"⟩,
    ⟨0x1afab522, "mutex_unlock"⟩,
    ⟨0x6d55026b, "mutex_lock"⟩,
    ⟨0xa202a8e5, "kmalloc_order_trace"⟩,
    ⟨0x610d3317, "usb_register_dev"⟩,
    ⟨0xccca000a, "kmem_cache_alloc_trace"⟩,
    ⟨0x7875fbf2, "kmalloc_caches"⟩,
    ⟨0x7e3c3329, "usb_deregister_dev"⟩,
    ⟨0x37a0cba, "kfree"⟩,
    ⟨0xa109df4c, "usb_clear_halt"⟩,
    ⟨0x4f8b5ddb, "_copy_to_user"⟩,
    ⟨0xdb7305a1, "__stack_chk_fail"⟩,
    ⟨0x27e1a049, "printk"⟩,
    ⟨0xa1c76e0a, "_cond_resched"⟩,
    ⟨0x65f7f10d, "usb_bulk_msg"⟩,
    ⟨0x4f6b400b, "_copy_from_user"⟩,
    ⟨0x88db9f48, "__check_object_size"⟩,
    ⟨0x2270cd45, "current_task"⟩,
    ⟨0x5ad8164f, "__mutex_init"⟩,
    ⟨0x9e88526, "__init_waitqueue_head"⟩,
    ⟨0x78e739aa, "up"⟩,
    ⟨0x6dc6dd56, "down"⟩,
    ⟨0xbdfb6dbb, "__fentry__"⟩ ]

/-- The string `__module_depends[]` of `CAENUSBdrvB.mod.c`. -/
def __module_depends : String := "depends="

/-- The arguments of the four `MODULE_ALIAS(...)` lines, in source order. -/
def MODULE_ALIAS : List String :=
  [ "usb:v0547p1002d*dc*dsc*dp*ic*isc*ip*in*",
    "usb:v21E1p0000d*dc*dsc*dp*ic*isc*ip*in*",
    "usb:v21E1p0001d*dc*dsc*dp*ic*isc*ip*in*",
    "usb:v21E1p0005d*dc*dsc*dp*ic*isc*ip*in*" ]

/-- The argument of `MODULE_INFO(srcversion, ...)`. -/
def srcversion : String := "8D9E1150BB67F8447FD6216"

/-- Names of the imported symbols, in table order. -/
def imported_symbols : List String := ____versions.map (fun e => e.name)

/-- Whether the symbol `s` is a row of `____versions`. -/
def imports (s : String) : Bool := decide (s ∈ imported_symbols)

/-- The imported symbols whose name starts with `pre`. -/
def imports_starting_with (pre : String) : List String :=
  imported_symbols.filter (fun s => pre.toList.isPrefixOf s.toList)

/-! ### Reading a USB alias string

The alias strings are written by the kernel build from the driver's
`usb_device_id` table.  A USB alias has the shape
`usb:v_p_d_dc_dsc_dp_ic_isc_ip_in_`: vendor id, product id, device release
number, device class, subclass and protocol, interface class, subclass,
protocol and number.  Each `_` is either `*` (the field is not constrained) or
upper-case hexadecimal digits (the field is fixed to that value). -/

/-- The field tags of a USB alias, in the order they occur. -/
def usb_alias_tags : List String :=
  ["v", "p", "d", "dc", "dsc", "dp", "ic", "isc", "ip", "in"]

/-- Value of an upper-case hexadecimal digit. -/
def hex_digit (c : Char) : Option Nat :=
  if c.isDigit then some (c.toNat - '0'.toNat)
  else if 'A'.toNat ≤ c.toNat ∧ c.toNat ≤ 'F'.toNat then some (c.toNat - 'A'.toNat + 10)
  else none

/-- Value of a string of hexadecimal digits, given the value `acc` read so far. -/
def hex_value (acc : Nat) : List Char → Option Nat
  | [] => some acc
  | c :: cs =>
    match hex_digit c with
    | some v => hex_value (16 * acc + v) cs
    | none => none

/-- A field of a match pattern: unconstrained, or fixed to a value. -/
inductive Field where
  | any
  | fixed (value : Nat)
deriving DecidableEq, Repr

/-- Whether a field constrains the device. -/
def Field.is_fixed : Field → Bool
  | Field.any => false
  | Field.fixed _ => true

/-- Whether a field accepts the value `v`. -/
def Field.accepts : Field → Nat → Bool
  | Field.any, _ => true
  | Field.fixed w, v => w == v

/-- Reads a field value: `*`, or a non-empty run of hexadecimal digits. -/
def read_field (value : List Char) : Option Field :=
  match value with
  | [] => none
  | ['*'] => some Field.any
  | _ => (hex_value 0 value).map Field.fixed

/-- Characters that may occur in a field value. -/
def is_value_char (c : Char) : Bool := c == '*' || (hex_digit c).isSome

/-- Reads the fields named by `tags` from `s`, which must be used up entirely. -/
def read_fields : List String → List Char → Option (List Field)
  | [], [] => some []
  | [], _ :: _ => none
  | tag :: tags, s =>
    if tag.toList.isPrefixOf s then
      let body := s.drop tag.toList.length
      match read_field (body.takeWhile is_value_char),
            read_fields tags (body.dropWhile is_value_char) with
      | some f, some fs => some (f :: fs)
      | _, _ => none
    else none

/-- A USB match pattern: the fields of a `usb_device_id` that an alias encodes. -/
structure usb_pattern where
  idVendor : Field
  idProduct : Field
  bcdDevice : Field
  bDeviceClass : Field
  bDeviceSubClass : Field
  bDeviceProtocol : Field
  bInterfaceClass : Field
  bInterfaceSubClass : Field
  bInterfaceProtocol : Field
  bInterfaceNumber : Field
deriving DecidableEq, Repr

/-- Reads one alias string. -/
def read_alias (a : String) : Option usb_pattern :=
  if "usb:".toList.isPrefixOf a.toList then
    match read_fields usb_alias_tags (a.toList.drop 4) with
    | some [v, p, d, dc, dsc, dp, ic, isc, ip, inum] =>
      some ⟨v, p, d, dc, dsc, dp, ic, isc, ip, inum⟩
    | _ => none
  else none

/-- The match patterns the module registers: the aliases that read as USB patterns. -/
def usb_patterns : List usb_pattern := MODULE_ALIAS.filterMap read_alias

/-- Identity of an attached USB interface, as far as the alias fields see it. -/
structure usb_identity where
  idVendor : Nat
  idProduct : Nat
  bcdDevice : Nat
  bDeviceClass : Nat
  bDeviceSubClass : Nat
  bDeviceProtocol : Nat
  bInterfaceClass : Nat
  bInterfaceSubClass : Nat
  bInterfaceProtocol : Nat
  bInterfaceNumber : Nat
deriving DecidableEq, Repr

/-- Whether a pattern matches a device: every fixed field agrees. -/
def usb_pattern.matches_device (p : usb_pattern) (x : usb_identity) : Bool :=
  p.idVendor.accepts x.idVendor && p.idProduct.accepts x.idProduct &&
  p.bcdDevice.accepts x.bcdDevice && p.bDeviceClass.accepts x.bDeviceClass &&
  p.bDeviceSubClass.accepts x.bDeviceSubClass &&
  p.bDeviceProtocol.accepts x.bDeviceProtocol &&
  p.bInterfaceClass.accepts x.bInterfaceClass &&
  p.bInterfaceSubClass.accepts x.bInterfaceSubClass &&
  p.bInterfaceProtocol.accepts x.bInterfaceProtocol &&
  p.bInterfaceNumber.accepts x.bInterfaceNumber

/-- A full vendor+product match fixes both the vendor id and the product id. -/
def usb_pattern.is_full_match (p : usb_pattern) : Bool :=
  p.idVendor.is_fixed && p.idProduct.is_fixed

/-- A wildcard-device match fixes the vendor id and leaves the product id open. -/
def usb_pattern.is_wildcard_device (p : usb_pattern) : Bool :=
  p.idVendor.is_fixed && !p.idProduct.is_fixed

/-- The patterns registered for vendor id `v`. -/
def patterns_of_vendor (v : Nat) : List usb_pattern :=
  usb_patterns.filter (fun p => p.idVendor == Field.fixed v)

/-- A device of vendor 21E1 whose product id, 0002, is none of the registered ones. -/
def unlisted_device : usb_identity :=
  { idVendor := 0x21E1, idProduct := 0x0002, bcdDevice := 0x0100, bDeviceClass := 0,
    bDeviceSubClass := 0, bDeviceProtocol := 0, bInterfaceClass := 0xFF,
    bInterfaceSubClass := 0, bInterfaceProtocol := 0, bInterfaceNumber := 0 }

/-! ### Kernel symbol classes used to read the table -/

/-- Kernel exports that move data by interrupt or isochronous transfers or by
submitting URBs. -/
def urb_or_interrupt_symbols : List String :=
  [ "usb_interrupt_msg", "usb_submit_urb", "usb_alloc_urb", "usb_free_urb",
    "usb_kill_urb", "usb_unlink_urb", "usb_poison_urb", "usb_init_urb",
    "usb_get_urb", "usb_anchor_urb", "usb_sg_init", "usb_sg_wait" ]

/-- Kernel exports through which a USB driver moves data to or from a device:
the synchronous message calls and the URB interface. -/
def usb_transfer_symbols : List String :=
  ["usb_bulk_msg", "usb_control_msg"] ++ urb_or_interrupt_symbols

/-- Kernel exports that sleep on or wake a wait queue or a completion. -/
def sleep_wake_symbols : List String :=
  [ "__wake_up", "prepare_to_wait", "prepare_to_wait_event", "finish_wait",
    "schedule", "schedule_timeout", "wait_for_completion", "complete" ]

/-- Kernel exports through which a caller blocks on a lock, a semaphore, a wait
queue, a completion or a timer. -/
def blocking_primitives : List String :=
  [ "mutex_lock", "mutex_lock_interruptible", "mutex_lock_killable",
    "down", "down_interruptible", "down_killable", "down_timeout",
    "down_read", "down_write",
    "prepare_to_wait", "prepare_to_wait_event", "prepare_to_wait_exclusive",
    "schedule", "schedule_timeout", "schedule_timeout_interruptible",
    "schedule_timeout_uninterruptible", "io_schedule",
    "wait_for_completion", "wait_for_completion_timeout",
    "wait_for_completion_interruptible",
    "wait_for_completion_interruptible_timeout", "wait_for_completion_killable",
    "msleep", "msleep_interruptible", "usleep_range",
    "interruptible_sleep_on", "interruptible_sleep_on_timeout",
    "sleep_on", "sleep_on_timeout" ]

/-- The facilities the design document attributes to the driver, each with the
kernel exports that provide it. -/
def facilities : List (String × List String) :=
  [ ("USB-core driver registration", ["usb_register_driver"]),
    ("USB-core driver deregistration", ["usb_deregister"]),
    ("character-device registration", ["usb_register_dev"]),
    ("mutex init", ["__mutex_init"]),
    ("mutex lock", ["mutex_lock"]),
    ("mutex unlock", ["mutex_unlock"]),
    ("semaphore down", ["down"]),
    ("semaphore up", ["up"]),
    ("wait queue", ["__init_waitqueue_head"]),
    ("bulk transfer", ["usb_bulk_msg"]),
    ("control transfer", ["usb_control_msg"]),
    ("halt clear", ["usb_clear_halt"]),
    ("copy from user to kernel", ["_copy_from_user"]),
    ("copy from kernel to user", ["_copy_to_user"]) ]

end CAENUSBdrvB

/-! ## Part II: the driver core, modelled from the design document -/

namespace CAENUSBdrvB

/-- A byte of payload; payloads are opaque to the driver. -/
abbrev Byte := Fin 256

/-- Modelled from the spec: the error taxonomy of section 7 (the driver's C file
is missing from the source tree), with `Disconnected` of section 4.1. -/
inductive Error where
  | NotFound
  | Gone
  | Timeout
  | Stalled
  | DeviceUnresponsive
  | ResourceExhausted
  | InvalidLength
  | FaultyUserMemory
  | Disconnected
deriving DecidableEq, Repr

/-- Modelled from the spec: the status half of an outcome, success or one error
kind (the driver's C file is missing from the source tree). -/
inductive Status where
  | success
  | failed (e : Error)
deriving DecidableEq, Repr

/-- Modelled from the spec: the state of a Device Context, section 3 (the
driver's C file is missing from the source tree). -/
inductive ContextState where
  | Active
  | Removed
deriving DecidableEq, Repr

/-- Modelled from the spec: direction of a Transfer Request, section 3 (the
driver's C file is missing from the source tree). -/
inductive Direction where
  | HostToDevice
  | DeviceToHost
deriving DecidableEq, Repr

/-- Modelled from the spec: endpoint selector of a Transfer Request, a bulk
endpoint address or the control endpoint with a request code (the driver's C
file is missing from the source tree). -/
inductive EndpointSel where
  | bulk (address : Nat)
  | control (request_code : Nat)
deriving DecidableEq, Repr

/-- Modelled from the spec: the Transfer Request of section 3; the offset into
the transfer buffer is always zero (the driver's C file is missing from the
source tree). -/
structure TransferRequest where
  direction : Direction
  endpoint : EndpointSel
  length : Nat
  timeout : Nat
deriving DecidableEq, Repr

/-- Modelled from the spec: what the Transfer Channel puts on the bus, a transfer
or a clear-halt on an endpoint (the driver's C file is missing from the source
tree). -/
inductive BusOp where
  | transfer (req : TransferRequest)
  | clear_halt (endpoint : EndpointSel)
deriving DecidableEq, Repr

/-- Modelled from the spec: what the bus reports for one transfer, completion
with a value, a stall (halt condition), a timeout or an I/O error (the driver's
C file is missing from the source tree). -/
inductive BusResult (α : Type) where
  | complete (value : α)
  | stall
  | timeout
  | io_error
deriving DecidableEq, Repr

/-- Whether a bus report is a stall. -/
def BusResult.is_stall {α : Type} : BusResult α → Bool
  | BusResult.stall => true
  | _ => false

/-- Modelled from the spec: the bus and the attached device as seen by the
Transfer Channel, a deterministic machine over a state `σ` (the kernel's USB
core and the hardware are outside the source tree).  `send` is given the
payload and reports how many bytes were taken, `recv` is given the requested
length and reports the bytes delivered, `clear_halt` reports whether the
clear-feature(ENDPOINT_HALT) request went through. -/
structure Hardware (σ : Type) where
  send : σ → EndpointSel → List Byte → Nat → BusResult Nat × σ
  recv : σ → EndpointSel → Nat → Nat → BusResult (List Byte) × σ
  clear_halt : σ → EndpointSel → Bool × σ

/-- Modelled from the spec: the result of `execute`, section 4.1, the pair
(bytes_transferred, status) with the transfer buffer, the bus state and the
bus log after the call (the driver's C file is missing from the source tree). -/
structure Outcome (σ : Type) where
  bytes_transferred : Nat
  status : Status
  buffer : List Byte
  bus : σ
  log : List BusOp

/-- Modelled from the spec: the halt recovery of section 4.1 (the driver's C file
is missing from the source tree).  One clear-halt is issued on the endpoint;
the error surfaced is `Stalled`, or `DeviceUnresponsive` when the clear-halt
itself fails. -/
def recover_halt {σ : Type} (hw : Hardware σ) (bus : σ) (log : List BusOp)
    (buffer : List Byte) (ep : EndpointSel) : Outcome σ :=
  let r := hw.clear_halt bus ep
  { bytes_transferred := 0,
    status := Status.failed (if r.1 then Error.Stalled else Error.DeviceUnresponsive),
    buffer := buffer, bus := r.2, log := log ++ [BusOp.clear_halt ep] }

/-- Modelled from the spec: how a bus report that is not a completion is surfaced, section
4.1 (the driver's C file is missing from the source tree). -/
def surface_failure {σ α : Type} (hw : Hardware σ) (r : BusResult α) (bus : σ)
    (log : List BusOp) (buffer : List Byte) (ep : EndpointSel) : Outcome σ :=
  match r with
  | BusResult.stall => recover_halt hw bus log buffer ep
  | BusResult.timeout =>
    { bytes_transferred := 0, status := Status.failed Error.Timeout,
      buffer := buffer, bus := bus, log := log }
  | _ =>
    { bytes_transferred := 0, status := Status.failed Error.DeviceUnresponsive,
      buffer := buffer, bus := bus, log := log }

/-- Modelled from the spec: `execute` of the Transfer Channel, section 4.1 (the
driver's C file is missing from the source tree).  It issues one blocking
transfer; a short transfer is reported as a count; a stall is followed by the
halt recovery before the error is surfaced. -/
def execute {σ : Type} (hw : Hardware σ) (bus : σ) (log : List BusOp)
    (buffer : List Byte) (req : TransferRequest) : Outcome σ :=
  let log1 := log ++ [BusOp.transfer req]
  match req.direction with
  | Direction.HostToDevice =>
    match hw.send bus req.endpoint (buffer.take req.length) req.timeout with
    | (BusResult.complete n, bus1) =>
      { bytes_transferred := min n req.length, status := Status.success,
        buffer := buffer, bus := bus1, log := log1 }
    | (r, bus1) => surface_failure hw r bus1 log1 buffer req.endpoint
  | Direction.DeviceToHost =>
    match hw.recv bus req.endpoint req.length req.timeout with
    | (BusResult.complete data, bus1) =>
      let got := data.take req.length
      { bytes_transferred := got.length, status := Status.success,
        buffer := got ++ buffer.drop got.length, bus := bus1, log := log1 }
    | (r, bus1) => surface_failure hw r bus1 log1 buffer req.endpoint

/-- Whether the bus reports a stall for the transfer `req` issued from `bus`. -/
def reports_stall {σ : Type} (hw : Hardware σ) (bus : σ) (buffer : List Byte)
    (req : TransferRequest) : Bool :=
  match req.direction with
  | Direction.HostToDevice =>
    (hw.send bus req.endpoint (buffer.take req.length) req.timeout).1.is_stall
  | Direction.DeviceToHost => (hw.recv bus req.endpoint req.length req.timeout).1.is_stall

/-- Number of clear-halt operations in a stretch of the bus log. -/
def clear_halt_count (ops : List BusOp) : Nat :=
  ops.countP (fun o => match o with | BusOp.clear_halt _ => true | _ => false)

/-- Modelled from the spec: the Device Context of section 3 (the driver's C file
is missing from the source tree). -/
structure DeviceContext where
  bulk_in : Nat
  bulk_out : Nat
  capacity : Nat
  buffer : List Byte
  state : ContextState
  refcount : Nat
deriving DecidableEq, Repr

/-- Modelled from the spec: caller-supplied memory, a region of bytes that may be
inaccessible (user processes are outside the source tree). -/
structure UserBuffer where
  accessible : Bool
  bytes : List Byte
deriving DecidableEq, Repr

/-- Modelled from the spec: `stage_in` of the User Bridge, section 4.4 (the
driver's C file is missing from the source tree).  Returns the status, the
context with its kernel buffer, and the caller's buffer after the call. -/
def stage_in (ctx : DeviceContext) (user : UserBuffer) (length : Nat) :
    Status × DeviceContext × UserBuffer :=
  if ctx.capacity < length then (Status.failed Error.InvalidLength, ctx, user)
  else if user.accessible = false ∨ user.bytes.length < length then
    (Status.failed Error.FaultyUserMemory, ctx, user)
  else
    (Status.success,
     { ctx with buffer := user.bytes.take length ++ ctx.buffer.drop length }, user)

/-- Modelled from the spec: `stage_out` of the User Bridge, section 4.4 (the
driver's C file is missing from the source tree).  Copies exactly `length`
bytes of the kernel buffer into the caller's buffer. -/
def stage_out (ctx : DeviceContext) (user : UserBuffer) (length : Nat) :
    Status × DeviceContext × UserBuffer :=
  if ctx.capacity < length then (Status.failed Error.InvalidLength, ctx, user)
  else if user.accessible = false ∨ user.bytes.length < length then
    (Status.failed Error.FaultyUserMemory, ctx, user)
  else
    (Status.success, ctx,
     { user with bytes := ctx.buffer.take length ++ user.bytes.drop length })

/-- Modelled from the spec: the endpoint descriptors handed to `on_attach`, section
4.2 (the driver's C file is missing from the source tree). -/
structure EndpointDescriptors where
  bulk_in : Nat
  bulk_out : Nat
  bulk_in_size : Nat
  bulk_out_size : Nat
deriving DecidableEq, Repr

/-- Modelled from the spec: the Session Handle of section 3, bound to the context
of one device id, with its open/closed flag (the driver's C file is missing
from the source tree). -/
structure SessionHandle where
  device_id : Nat
  is_open : Bool
deriving DecidableEq, Repr

/-- Modelled from the spec: the driver's whole state (the driver's C file is
missing from the source tree).  `contexts` is the registry: the device id of an
attachment is its position, `none` marks a context whose resources were
released.  `sessions` holds every handle ever returned by `open`.  `released`
records each release of a context's resources. -/
structure Driver (σ : Type) where
  contexts : List (Option DeviceContext)
  sessions : List SessionHandle
  bus : σ
  log : List BusOp
  released : List Nat
  timeout : Nat

/-- Modelled from the spec: the driver right after load, nothing attached and
nothing open (the driver's C file is missing from the source tree). -/
def Driver.init {σ : Type} (bus : σ) (timeout : Nat) : Driver σ :=
  { contexts := [], sessions := [], bus := bus, log := [], released := [],
    timeout := timeout }

/-- Modelled from the spec: the lookup of the context registered under a device id, section
4.3 (the driver's C file is missing from the source tree). -/
def Driver.find {σ : Type} (d : Driver σ) (id : Nat) : Option DeviceContext :=
  match d.contexts[id]? with
  | some (some ctx) => some ctx
  | _ => none

/-- Modelled from the spec: the session behind handle `h`, provided its flag says
open, section 3 (the driver's C file is missing from the source tree). -/
def Driver.session {σ : Type} (d : Driver σ) (h : Nat) : Option SessionHandle :=
  match d.sessions[h]? with
  | some s => if s.is_open then some s else none
  | none => none

/-- Number of open sessions bound to device `id`. -/
def open_sessions (sessions : List SessionHandle) (id : Nat) : Nat :=
  sessions.countP (fun s => s.is_open && s.device_id == id)

/-- Modelled from the spec: the update of the context registered under `id` (the
driver's C file is missing from the source tree). -/
def Driver.put {σ : Type} (d : Driver σ) (id : Nat) (ctx : DeviceContext) : Driver σ :=
  { d with contexts := d.contexts.set id (some ctx) }

/-- Modelled from the spec: context destruction (buffer release, primitive
teardown), sections 3 and 4.3 (the driver's C file is missing from the source
tree).  The registry entry is cleared and the release is recorded. -/
def Driver.destroy {σ : Type} (d : Driver σ) (id : Nat) : Driver σ :=
  { d with contexts := d.contexts.set id none, released := d.released ++ [id] }

/-- Modelled from the spec: what a caller-facing operation returns (the driver's
C file is missing from the source tree). -/
inductive Reply where
  | context (id : Nat)
  | handle (h : Nat)
  | bytes (data : List Byte)
  | count (n : Nat)
  | done
  | failed (e : Error)
deriving DecidableEq, Repr

/-- Modelled from the spec: `on_attach` of the Lifecycle Manager, section 4.2 (the
driver's C file is missing from the source tree).  `alloc_ok` says whether the
buffer allocation succeeds.  The buffer is sized to the largest declared
endpoint transfer size, the state is `Active`, and the context is registered
under a fresh device id. -/
def on_attach {σ : Type} (d : Driver σ) (desc : EndpointDescriptors) (alloc_ok : Bool) :
    Reply × Driver σ :=
  if alloc_ok = false then (Reply.failed Error.ResourceExhausted, d)
  else
    let cap := max desc.bulk_in_size desc.bulk_out_size
    (Reply.context d.contexts.length,
     { d with contexts := d.contexts ++
        [some { bulk_in := desc.bulk_in, bulk_out := desc.bulk_out, capacity := cap,
                buffer := List.replicate cap 0, state := ContextState.Active,
                refcount := 0 }] })

/-- Modelled from the spec: `on_detach` of the Lifecycle Manager, section 4.2 (the
driver's C file is missing from the source tree).  The state becomes `Removed`;
the context is destroyed here only when no session is open, otherwise the
destruction is left to the last `close`. -/
def on_detach {σ : Type} (d : Driver σ) (id : Nat) : Reply × Driver σ :=
  match d.find id with
  | none => (Reply.done, d)
  | some ctx =>
    let d1 := d.put id { ctx with state := ContextState.Removed }
    if ctx.refcount = 0 then (Reply.done, d1.destroy id) else (Reply.done, d1)

/-- Modelled from the spec: `open` of the Session Handle, section 4.3 (the
driver's C file is missing from the source tree). -/
def session_open {σ : Type} (d : Driver σ) (id : Nat) : Reply × Driver σ :=
  match d.find id with
  | none => (Reply.failed Error.NotFound, d)
  | some ctx =>
    match ctx.state with
    | ContextState.Removed => (Reply.failed Error.Gone, d)
    | ContextState.Active =>
      (Reply.handle d.sessions.length,
       { d.put id { ctx with refcount := ctx.refcount + 1 } with
         sessions := d.sessions ++ [{ device_id := id, is_open := true }] })

/-- Modelled from the spec: `close` of the Session Handle, section 4.3 (the
driver's C file is missing from the source tree).  The refcount is decremented;
when it drops to zero and the state is `Removed` the context is destroyed.
A handle that is not open is left alone. -/
def session_close {σ : Type} (d : Driver σ) (h : Nat) : Reply × Driver σ :=
  match d.session h with
  | none => (Reply.done, d)
  | some s =>
    let d1 := { d with sessions := d.sessions.set h { s with is_open := false } }
    match d1.find s.device_id with
    | none => (Reply.done, d1)
    | some ctx =>
      let d2 := d1.put s.device_id { ctx with refcount := ctx.refcount - 1 }
      if ctx.refcount - 1 = 0 ∧ ctx.state = ContextState.Removed then
        (Reply.done, d2.destroy s.device_id)
      else (Reply.done, d2)

/-- Modelled from the spec: what a transfer leaves behind, the buffer contents in
the context and the new bus state and bus log (the driver's C file is missing
from the source tree). -/
def Driver.commit {σ : Type} (d : Driver σ) (id : Nat) (ctx : DeviceContext)
    (out : Outcome σ) : Driver σ :=
  { d.put id { ctx with buffer := out.buffer } with bus := out.bus, log := out.log }

/-- Modelled from the spec: the write-direction path of section 4.3, User Bridge
`stage_in` then one Transfer Channel `execute` (the driver's C file is missing
from the source tree). -/
def transfer_out {σ : Type} (hw : Hardware σ) (d : Driver σ) (id : Nat)
    (ctx : DeviceContext) (ep : EndpointSel) (src : UserBuffer) (length : Nat) :
    Reply × Driver σ × UserBuffer :=
  match stage_in ctx src length with
  | (Status.failed e, _, src1) => (Reply.failed e, d, src1)
  | (Status.success, ctx1, src1) =>
    let out := execute hw d.bus d.log ctx1.buffer
      { direction := Direction.HostToDevice, endpoint := ep, length := length,
        timeout := d.timeout }
    match out.status with
    | Status.failed e => (Reply.failed e, d.commit id ctx1 out, src1)
    | Status.success => (Reply.count out.bytes_transferred, d.commit id ctx1 out, src1)

/-- Modelled from the spec: the read-direction path of section 4.3, the boundary
check of the User Bridge, one Transfer Channel `execute`, then `stage_out` of
the N bytes transferred (the driver's C file is missing from the source tree).
The reply carries the N bytes now in the caller's memory. -/
def transfer_in {σ : Type} (hw : Hardware σ) (d : Driver σ) (id : Nat)
    (ctx : DeviceContext) (ep : EndpointSel) (dst : UserBuffer) (length : Nat) :
    Reply × Driver σ × UserBuffer :=
  if ctx.capacity < length then (Reply.failed Error.InvalidLength, d, dst)
  else
    let out := execute hw d.bus d.log ctx.buffer
      { direction := Direction.DeviceToHost, endpoint := ep, length := length,
        timeout := d.timeout }
    let ctx1 := { ctx with buffer := out.buffer }
    match out.status with
    | Status.failed e => (Reply.failed e, d.commit id ctx out, dst)
    | Status.success =>
      match stage_out ctx1 dst out.bytes_transferred with
      | (Status.failed e, _, dst1) => (Reply.failed e, d.commit id ctx out, dst1)
      | (Status.success, _, dst1) =>
        (Reply.bytes (dst1.bytes.take out.bytes_transferred), d.commit id ctx out, dst1)

/-- Modelled from the spec: the common entry of `read`, `write` and `control`, section
4.3 (the driver's C file is missing from the source tree).  With the
context's mutex held, the state is checked to be `Active`, else the call fails
with `Gone`; a handle that is not open is stale and fails with `Gone` too. -/
def with_active_context {σ : Type} (d : Driver σ) (h : Nat) (user : UserBuffer)
    (body : Nat → DeviceContext → Reply × Driver σ × UserBuffer) :
    Reply × Driver σ × UserBuffer :=
  match d.session h with
  | none => (Reply.failed Error.Gone, d, user)
  | some s =>
    match d.find s.device_id with
    | none => (Reply.failed Error.Gone, d, user)
    | some ctx =>
      match ctx.state with
      | ContextState.Removed => (Reply.failed Error.Gone, d, user)
      | ContextState.Active => body s.device_id ctx

/-- Modelled from the spec: `read` of the Session Handle, section 4.3 (the
driver's C file is missing from the source tree). -/
def session_read {σ : Type} (hw : Hardware σ) (d : Driver σ) (h : Nat) (length : Nat)
    (dst : UserBuffer) : Reply × Driver σ × UserBuffer :=
  with_active_context d h dst (fun id ctx =>
    transfer_in hw d id ctx (EndpointSel.bulk ctx.bulk_in) dst length)

/-- Modelled from the spec: `write` of the Session Handle, section 4.3 (the
driver's C file is missing from the source tree). -/
def session_write {σ : Type} (hw : Hardware σ) (d : Driver σ) (h : Nat)
    (src : UserBuffer) (length : Nat) : Reply × Driver σ × UserBuffer :=
  with_active_context d h src (fun id ctx =>
    transfer_out hw d id ctx (EndpointSel.bulk ctx.bulk_out) src length)

/-- Modelled from the spec: `control` of the Session Handle, section 4.3 (the
driver's C file is missing from the source tree). -/
def session_control {σ : Type} (hw : Hardware σ) (d : Driver σ) (h : Nat)
    (request_code : Nat) (dir : Direction) (data : UserBuffer) (length : Nat) :
    Reply × Driver σ × UserBuffer :=
  with_active_context d h data (fun id ctx =>
    match dir with
    | Direction.HostToDevice =>
      transfer_out hw d id ctx (EndpointSel.control request_code) data length
    | Direction.DeviceToHost =>
      transfer_in hw d id ctx (EndpointSel.control request_code) data length)

/-- Modelled from the spec: the events the driver reacts to, bus events of section
4.2 and caller requests of section 4.3 (the driver's C file is missing
from the source tree). -/
inductive Op where
  | attach (desc : EndpointDescriptors) (alloc_ok : Bool)
  | detach (id : Nat)
  | open_session (id : Nat)
  | close_session (h : Nat)
  | read (h : Nat) (length : Nat) (dst : UserBuffer)
  | write (h : Nat) (src : UserBuffer) (length : Nat)
  | control (h : Nat) (request_code : Nat) (dir : Direction) (data : UserBuffer)
      (length : Nat)
deriving DecidableEq, Repr

/-- Whether an event is a `read`, `write` or `control` call on handle `h`. -/
def Op.is_io_on (h : Nat) : Op → Bool
  | Op.read k _ _ => k == h
  | Op.write k _ _ => k == h
  | Op.control k _ _ _ _ => k == h
  | _ => false

/-- Modelled from the spec: one event handled to completion; section 5 has the
transfers on one context strictly serialized by its mutex, so events are
taken one at a time (the driver's C file is missing from the source tree). -/
def step {σ : Type} (hw : Hardware σ) (d : Driver σ) : Op → Reply × Driver σ
  | Op.attach desc alloc_ok => on_attach d desc alloc_ok
  | Op.detach id => on_detach d id
  | Op.open_session id => session_open d id
  | Op.close_session h => session_close d h
  | Op.read h length dst =>
    let r := session_read hw d h length dst
    (r.1, r.2.1)
  | Op.write h src length =>
    let r := session_write hw d h src length
    (r.1, r.2.1)
  | Op.control h code dir data length =>
    let r := session_control hw d h code dir data length
    (r.1, r.2.1)

/-- Modelled from the spec: a sequence of events handled in order (the driver's C
file is missing from the source tree). -/
def run {σ : Type} (hw : Hardware σ) (d : Driver σ) : List Op → Driver σ
  | [] => d
  | op :: ops => run hw (step hw d op).2 ops

/-- Modelled from the spec: the loopback device of testable property 1, which
hands back on a read what was written to it, in order (the test bench is
outside the source tree).  Its state is the queue of bytes not yet read. -/
def loopback : Hardware (List Byte) where
  send := fun q _ payload _ => (BusResult.complete payload.length, q ++ payload)
  recv := fun q _ length _ => (BusResult.complete (q.take length), q.drop length)
  clear_halt := fun q _ => (true, q)

/-- Modelled from the spec: a device whose endpoints are halted, the stall case of section
4.1 (the hardware is outside the source tree).  Every transfer stalls,
and a clear-halt goes through exactly when the state is `true`. -/
def halted : Hardware Bool where
  send := fun b _ _ _ => (BusResult.stall, b)
  recv := fun b _ _ _ => (BusResult.stall, b)
  clear_halt := fun b _ => (b, b)

/-- Invariant of the reachable driver states.  Each registered context counts its open
sessions, none is both unreferenced and `Removed`, an id without a
registered context has no open session, and the release record lists exactly
the cleared registry entries, each once. -/
structure Driver.wf {σ : Type} (d : Driver σ) : Prop where
  refcount_eq : ∀ id ctx, d.find id = some ctx → ctx.refcount = open_sessions d.sessions id
  live : ∀ id ctx, d.find id = some ctx →
    ¬ (ctx.refcount = 0 ∧ ctx.state = ContextState.Removed)
  idle : ∀ id, d.find id = none → open_sessions d.sessions id = 0
  released_iff : ∀ id, id ∈ d.released ↔ d.contexts[id]? = some none
  released_once : d.released.Nodup

/-- How one registry entry may evolve: an unused id may get a context, a cleared
entry stays cleared, and a context either is cleared or stays, `Removed` if it
was `Removed`. -/
def entry_mono : Option (Option DeviceContext) → Option (Option DeviceContext) → Prop
  | none, _ => True
  | some none, e => e = some none
  | some (some c), e =>
    e = some none ∨
    ∃ c', e = some (some c') ∧
      (c.state = ContextState.Removed → c'.state = ContextState.Removed)

/-- The ways one event changes the registry, the session table and the release
record. -/
inductive Change {σ : Type} (d e : Driver σ) : Prop where
  | same (hc : e.contexts = d.contexts) (hs : e.sessions = d.sessions)
      (hr : e.released = d.released)
  | attached (c : DeviceContext) (h0 : c.refcount = 0)
      (hA : c.state = ContextState.Active) (hc : e.contexts = d.contexts ++ [some c])
      (hs : e.sessions = d.sessions) (hr : e.released = d.released)
  | updated (i : Nat) (c c' : DeviceContext) (hf : d.find i = some c)
      (hc : e.contexts = d.contexts.set i (some c')) (hs : e.sessions = d.sessions)
      (hr : e.released = d.released) (href : c'.refcount = c.refcount)
      (hst : c'.state = c.state ∨ (c'.state = ContextState.Removed ∧ c.refcount ≠ 0))
  | unplugged (i : Nat) (c : DeviceContext) (hf : d.find i = some c) (h0 : c.refcount = 0)
      (hc : e.contexts = d.contexts.set i none) (hs : e.sessions = d.sessions)
      (hr : e.released = d.released ++ [i])
  | opened (i : Nat) (c : DeviceContext) (hf : d.find i = some c)
      (hA : c.state = ContextState.Active)
      (hc : e.contexts = d.contexts.set i (some { c with refcount := c.refcount + 1 }))
      (hs : e.sessions = d.sessions ++ [{ device_id := i, is_open := true }])
      (hr : e.released = d.released)
  | closed_last (h : Nat) (s : SessionHandle) (c : DeviceContext)
      (hh : d.session h = some s) (hf : d.find s.device_id = some c)
      (h1 : c.refcount - 1 = 0) (hR : c.state = ContextState.Removed)
      (hc : e.contexts = d.contexts.set s.device_id none)
      (hs : e.sessions = d.sessions.set h { s with is_open := false })
      (hr : e.released = d.released ++ [s.device_id])
  | closed (h : Nat) (s : SessionHandle) (c : DeviceContext)
      (hh : d.session h = some s) (hf : d.find s.device_id = some c)
      (hn : ¬ (c.refcount - 1 = 0 ∧ c.state = ContextState.Removed))
      (hc : e.contexts =
        d.contexts.set s.device_id (some { c with refcount := c.refcount - 1 }))
      (hs : e.sessions = d.sessions.set h { s with is_open := false })
      (hr : e.released = d.released)
  | closed_stale (h : Nat) (s : SessionHandle)
      (hh : d.session h = some s) (hf : d.find s.device_id = none)
      (hc : e.contexts = d.contexts)
      (hs : e.sessions = d.sessions.set h { s with is_open := false })
      (hr : e.released = d.released)

/-! ### Concrete states used to exercise the model -/

/-- Endpoint descriptors of a small device: bulk-in 0x81, bulk-out 0x02, four
bytes each way. -/
def demo_descriptors : EndpointDescriptors :=
  { bulk_in := 0x81, bulk_out := 0x02, bulk_in_size := 4, bulk_out_size := 4 }

/-- The loopback device attached and opened once. -/
def demo_active : Driver (List Byte) :=
  run loopback (Driver.init [] 1000) [Op.attach demo_descriptors true, Op.open_session 0]

/-- The events leading to a detached device with one session still open. -/
def demo_removed_ops : List Op :=
  [Op.attach demo_descriptors true, Op.open_session 0, Op.detach 0]

/-- The loopback device attached, opened once, then detached. -/
def demo_removed : Driver (List Byte) :=
  run loopback (Driver.init [] 1000) demo_removed_ops

/-- The context of `demo_active`. -/
def demo_context : DeviceContext :=
  { bulk_in := 0x81, bulk_out := 0x02, capacity := 4, buffer := [0, 0, 0, 0],
    state := ContextState.Active, refcount := 1 }

/-- The events leading to two open sessions on an attached device. -/
def demo_shared_ops : List Op :=
  [Op.attach demo_descriptors true, Op.open_session 0, Op.open_session 0]

/-- The loopback device attached and opened twice. -/
def demo_shared : Driver (List Byte) :=
  run loopback (Driver.init [] 1000) demo_shared_ops

end CAENUSBdrvB

/-! ## Theorems about the linkage descriptor -/

namespace CAENUSBdrvB

/-- C1: the alias table registers exactly four USB match patterns; their vendor
ids are 0547, 21E1, 21E1, 21E1, so exactly one pattern is for vendor 0547 and
exactly three are for vendor 21E1. -/
theorem alias_table_vendors :
    MODULE_ALIAS.length = 4 ∧ usb_patterns.length = 4 ∧
    usb_patterns.map (fun p => p.idVendor) =
      [Field.fixed 0x0547, Field.fixed 0x21E1, Field.fixed 0x21E1, Field.fixed 0x21E1] ∧
    (patterns_of_vendor 0x0547).length = 1 ∧ (patterns_of_vendor 0x21E1).length = 3 := by
  decide

/-- C2 fails as stated: it is not the case that one pattern is a full
vendor+product match and three are wildcard-device matches.  No pattern leaves
the product id open, all four are full matches, and the device 21E1:0002 is
matched by none of them. -/
theorem alias_table_has_no_wildcard_device :
    ¬ ((usb_patterns.filter usb_pattern.is_full_match).length = 1 ∧
       (usb_patterns.filter usb_pattern.is_wildcard_device).length = 3) ∧
    (usb_patterns.filter usb_pattern.is_wildcard_device).length = 0 ∧
    (usb_patterns.filter usb_pattern.is_full_match).length = 4 ∧
    usb_patterns.any (fun p => p.matches_device unlisted_device) = false := by
  decide

/-- C2 amended: all four patterns are full vendor+product matches, 0547:1002,
21E1:0000, 21E1:0001 and 21E1:0005; what each leaves unconstrained is the device
release number, the device class, subclass and protocol and the interface
class, subclass, protocol and number. -/
theorem alias_table_patterns :
    usb_patterns =
      [ { idVendor := Field.fixed 0x0547, idProduct := Field.fixed 0x1002,
          bcdDevice := Field.any, bDeviceClass := Field.any, bDeviceSubClass := Field.any,
          bDeviceProtocol := Field.any, bInterfaceClass := Field.any,
          bInterfaceSubClass := Field.any, bInterfaceProtocol := Field.any,
          bInterfaceNumber := Field.any },
        { idVendor := Field.fixed 0x21E1, idProduct := Field.fixed 0x0000,
          bcdDevice := Field.any, bDeviceClass := Field.any, bDeviceSubClass := Field.any,
          bDeviceProtocol := Field.any, bInterfaceClass := Field.any,
          bInterfaceSubClass := Field.any, bInterfaceProtocol := Field.any,
          bInterfaceNumber := Field.any },
        { idVendor := Field.fixed 0x21E1, idProduct := Field.fixed 0x0001,
          bcdDevice := Field.any, bDeviceClass := Field.any, bDeviceSubClass := Field.any,
          bDeviceProtocol := Field.any, bInterfaceClass := Field.any,
          bInterfaceSubClass := Field.any, bInterfaceProtocol := Field.any,
          bInterfaceNumber := Field.any },
        { idVendor := Field.fixed 0x21E1, idProduct := Field.fixed 0x0005,
          bcdDevice := Field.any, bDeviceClass := Field.any, bDeviceSubClass := Field.any,
          bDeviceProtocol := Field.any, bInterfaceClass := Field.any,
          bInterfaceSubClass := Field.any, bInterfaceProtocol := Field.any,
          bInterfaceNumber := Field.any } ] ∧
    usb_patterns.all usb_pattern.is_full_match = true := by
  decide

/-- C8: of the kernel's USB data-transfer exports the table holds exactly
usb_control_msg and usb_bulk_msg; no row is an interrupt-transfer, isochronous
or URB-submission symbol; the rows named usb_* are these two, the four
registration calls and usb_clear_halt. -/
theorem only_bulk_and_control_transfers :
    imported_symbols.filter (fun s => decide (s ∈ usb_transfer_symbols)) =
      ["usb_control_msg", "usb_bulk_msg"] ∧
    imported_symbols.filter (fun s => decide (s ∈ urb_or_interrupt_symbols)) = [] ∧
    imports_starting_with "usb_" =
      ["usb_deregister", "usb_register_driver", "usb_control_msg", "usb_register_dev",
       "usb_deregister_dev", "usb_clear_halt", "usb_bulk_msg"] := by
  decide

/-- C9: every facility the design document attributes to the driver has a symbol
in the table: driver registration and deregistration, character-device
registration, mutex init, lock and unlock, semaphore down and up, wait queue,
bulk transfer, control transfer, halt clear, and copies from and to user
memory. -/
theorem every_facility_is_imported :
    facilities.length = 14 ∧
    facilities.all (fun f => f.2.any imports) = true ∧
    (facilities.map (fun f => f.2)).flatten.all imports = true := by
  decide

/-- C10: the table holds __init_waitqueue_head and none of __wake_up,
prepare_to_wait, prepare_to_wait_event, finish_wait, schedule, schedule_timeout,
wait_for_completion, complete; of the kernel's lock, semaphore, wait-queue,
completion and sleep calls that block, it holds exactly mutex_lock and down. -/
theorem waitqueue_is_only_initialised :
    imports "__init_waitqueue_head" = true ∧
    imported_symbols.filter (fun s => decide (s ∈ sleep_wake_symbols)) = [] ∧
    imported_symbols.filter (fun s => decide (s ∈ blocking_primitives)) =
      ["mutex_lock", "down"] := by
  decide

end CAENUSBdrvB

/-! ## Theorems about the driver core -/

namespace CAENUSBdrvB

section registry
variable {σ : Type}

@[simp] theorem Driver.contexts_put (d : Driver σ) (i : Nat) (c : DeviceContext) :
    (d.put i c).contexts = d.contexts.set i (some c) := rfl

@[simp] theorem Driver.sessions_put (d : Driver σ) (i : Nat) (c : DeviceContext) :
    (d.put i c).sessions = d.sessions := rfl

@[simp] theorem Driver.released_put (d : Driver σ) (i : Nat) (c : DeviceContext) :
    (d.put i c).released = d.released := rfl

@[simp] theorem Driver.log_put (d : Driver σ) (i : Nat) (c : DeviceContext) :
    (d.put i c).log = d.log := rfl

@[simp] theorem Driver.bus_put (d : Driver σ) (i : Nat) (c : DeviceContext) :
    (d.put i c).bus = d.bus := rfl

@[simp] theorem Driver.timeout_put (d : Driver σ) (i : Nat) (c : DeviceContext) :
    (d.put i c).timeout = d.timeout := rfl

@[simp] theorem Driver.contexts_destroy (d : Driver σ) (i : Nat) :
    (d.destroy i).contexts = d.contexts.set i none := rfl

@[simp] theorem Driver.sessions_destroy (d : Driver σ) (i : Nat) :
    (d.destroy i).sessions = d.sessions := rfl

@[simp] theorem Driver.released_destroy (d : Driver σ) (i : Nat) :
    (d.destroy i).released = d.released ++ [i] := rfl

@[simp] theorem Driver.log_destroy (d : Driver σ) (i : Nat) :
    (d.destroy i).log = d.log := rfl

@[simp] theorem Driver.contexts_commit (d : Driver σ) (i : Nat) (c : DeviceContext)
    (out : Outcome σ) :
    (d.commit i c out).contexts = d.contexts.set i (some { c with buffer := out.buffer }) := rfl

@[simp] theorem Driver.sessions_commit (d : Driver σ) (i : Nat) (c : DeviceContext)
    (out : Outcome σ) : (d.commit i c out).sessions = d.sessions := rfl

@[simp] theorem Driver.released_commit (d : Driver σ) (i : Nat) (c : DeviceContext)
    (out : Outcome σ) : (d.commit i c out).released = d.released := rfl

@[simp] theorem Driver.bus_commit (d : Driver σ) (i : Nat) (c : DeviceContext)
    (out : Outcome σ) : (d.commit i c out).bus = out.bus := rfl

@[simp] theorem Driver.timeout_commit (d : Driver σ) (i : Nat) (c : DeviceContext)
    (out : Outcome σ) : (d.commit i c out).timeout = d.timeout := rfl

theorem Driver.find_eq_some {d : Driver σ} {i : Nat} {c : DeviceContext} :
    d.find i = some c ↔ d.contexts[i]? = some (some c) := by
  unfold Driver.find
  split
  · rename_i x h; simp [h]
  · rename_i h
    constructor
    · intro h1; cases h1
    · intro h1; exact absurd h1 (h c)

theorem Driver.find_lt {d : Driver σ} {i : Nat} {c : DeviceContext}
    (h : d.find i = some c) : i < d.contexts.length := by
  rw [Driver.find_eq_some] at h
  exact (List.getElem?_eq_some.mp h).1

theorem Driver.find_of_contexts_eq {d e : Driver σ} (h : e.contexts = d.contexts) (i : Nat) :
    e.find i = d.find i := by
  unfold Driver.find; rw [h]

theorem Driver.session_of_sessions_eq {d e : Driver σ} (h : e.sessions = d.sessions)
    (k : Nat) : e.session k = d.session k := by
  unfold Driver.session; rw [h]

theorem Driver.find_put_self {d : Driver σ} {i : Nat} (c : DeviceContext)
    (h : i < d.contexts.length) : (d.put i c).find i = some c := by
  rw [Driver.find_eq_some, Driver.contexts_put, List.getElem?_set_self h]

theorem Driver.find_commit_self {d : Driver σ} {i : Nat} (c : DeviceContext)
    (out : Outcome σ) (h : i < d.contexts.length) :
    (d.commit i c out).find i = some { c with buffer := out.buffer } := by
  rw [Driver.find_eq_some, Driver.contexts_commit, List.getElem?_set_self h]

end registry

/-- C6: `execute` puts on the bus the transfer and, exactly when the transfer
reports a stall, one clear-halt on the same endpoint right after it; so the
number of clear-halt operations issued before the result is returned is one
for a transfer that stalls and zero for one that does not. -/
theorem one_clear_halt_per_stall {σ : Type} (hw : Hardware σ) (bus : σ)
    (log : List BusOp) (buffer : List Byte) (req : TransferRequest) :
    (execute hw bus log buffer req).log =
      log ++ BusOp.transfer req ::
        (if reports_stall hw bus buffer req then [BusOp.clear_halt req.endpoint] else []) ∧
    clear_halt_count ((execute hw bus log buffer req).log.drop log.length) =
      (if reports_stall hw bus buffer req then 1 else 0) := by
  have key : (execute hw bus log buffer req).log =
      log ++ BusOp.transfer req ::
        (if reports_stall hw bus buffer req then [BusOp.clear_halt req.endpoint] else []) := by
    unfold execute reports_stall
    cases req.direction with
    | HostToDevice =>
      simp only
      rcases hs : hw.send bus req.endpoint (List.take req.length buffer) req.timeout with ⟨r, b⟩
      cases r <;> simp [surface_failure, recover_halt, BusResult.is_stall]
    | DeviceToHost =>
      simp only
      rcases hr : hw.recv bus req.endpoint req.length req.timeout with ⟨r, b⟩
      cases r <;> simp [surface_failure, recover_halt, BusResult.is_stall]
  refine ⟨key, ?_⟩
  rw [key, List.drop_left]
  by_cases h : reports_stall hw bus buffer req = true <;> simp [h, clear_halt_count]

/-- C4: for a length above the buffer capacity, `stage_in` and `stage_out` fail
with `InvalidLength` and hand back the context (with its kernel buffer) and the
caller's buffer as they were; the write and read paths built on them then fail
the same way without touching the driver state, the bus or the caller's
buffer. -/
theorem oversize_staging_rejected {σ : Type} (hw : Hardware σ) (d : Driver σ) (id : Nat)
    (ep : EndpointSel) (ctx : DeviceContext) (user : UserBuffer) (length : Nat)
    (h : ctx.capacity < length) :
    stage_in ctx user length = (Status.failed Error.InvalidLength, ctx, user) ∧
    stage_out ctx user length = (Status.failed Error.InvalidLength, ctx, user) ∧
    transfer_out hw d id ctx ep user length = (Reply.failed Error.InvalidLength, d, user) ∧
    transfer_in hw d id ctx ep user length = (Reply.failed Error.InvalidLength, d, user) := by
  have h1 : stage_in ctx user length = (Status.failed Error.InvalidLength, ctx, user) := by
    simp [stage_in, h]
  refine ⟨h1, by simp [stage_out, h], ?_, by simp [transfer_in, h]⟩
  simp [transfer_out, h1]

/-- When the length fits and the caller's buffer is accessible and large enough,
`stage_out` copies the first `n` bytes of the kernel buffer over the first `n`
bytes of the caller's buffer. -/
theorem stage_out_ok (c : DeviceContext) (dst : UserBuffer) (n : Nat)
    (h1 : n ≤ c.capacity) (h2 : dst.accessible = true) (h3 : n ≤ dst.bytes.length) :
    stage_out c dst n =
      (Status.success, c, { dst with bytes := c.buffer.take n ++ dst.bytes.drop n }) := by
  simp [stage_out, Nat.not_lt.mpr h1, h2, Nat.not_lt.mpr h3]

/-- What `write` of `data` does on an `Active` context over the loopback device. -/
theorem loopback_write_eq (d : Driver (List Byte)) (h : Nat) (s : SessionHandle)
    (ctx : DeviceContext) (data : List Byte)
    (hs : d.session h = some s) (hc : d.find s.device_id = some ctx)
    (hA : ctx.state = ContextState.Active) (hlen : data.length ≤ ctx.capacity) :
    session_write loopback d h { accessible := true, bytes := data } data.length =
      (Reply.count data.length,
       { d.put s.device_id { ctx with buffer := data ++ ctx.buffer.drop data.length } with
         bus := d.bus ++ data,
         log := d.log ++ [BusOp.transfer
           { direction := Direction.HostToDevice, endpoint := EndpointSel.bulk ctx.bulk_out,
             length := data.length, timeout := d.timeout }] },
       { accessible := true, bytes := data }) := by
  have hst : stage_in ctx { accessible := true, bytes := data } data.length =
      (Status.success, { ctx with buffer := data ++ ctx.buffer.drop data.length },
       { accessible := true, bytes := data }) := by
    simp [stage_in, Nat.not_lt.mpr hlen]
  simp [session_write, with_active_context, hs, hc, hA, transfer_out, hst, execute, loopback,
    Driver.commit, Driver.put]

/-- What `read` of `n` bytes does on an `Active` context over the loopback device
whose queue holds exactly `n` bytes. -/
theorem loopback_read_eq (d : Driver (List Byte)) (h : Nat) (s : SessionHandle)
    (ctx : DeviceContext) (dst : UserBuffer)
    (hs : d.session h = some s) (hc : d.find s.device_id = some ctx)
    (hA : ctx.state = ContextState.Active) (hlen : d.bus.length ≤ ctx.capacity)
    (hdst : dst.accessible = true) (hroom : d.bus.length ≤ dst.bytes.length) :
    (session_read loopback d h d.bus.length dst).1 = Reply.bytes d.bus ∧
    (session_read loopback d h d.bus.length dst).2.2 =
      { dst with bytes := d.bus ++ dst.bytes.drop d.bus.length } := by
  simp only [session_read, with_active_context, hs, hc, hA, transfer_in, Nat.not_lt.mpr hlen,
    execute, loopback, if_false, List.take_length]
  rw [stage_out_ok _ dst d.bus.length (by simpa using hlen) hdst hroom]
  simp

/-- C3: on an `Active` context over the loopback device with nothing queued, a
`write` of a byte sequence no longer than the buffer capacity reports the whole
length as written, and the `read` of the same length that follows returns
exactly those bytes, which are then the first bytes of the caller's buffer. -/
theorem write_then_loopback_read (d : Driver (List Byte)) (h : Nat) (s : SessionHandle)
    (ctx : DeviceContext) (data : List Byte) (dst : UserBuffer)
    (hs : d.session h = some s) (hc : d.find s.device_id = some ctx)
    (hA : ctx.state = ContextState.Active) (hq : d.bus = [])
    (hlen : data.length ≤ ctx.capacity)
    (hdst : dst.accessible = true) (hroom : data.length ≤ dst.bytes.length) :
    (session_write loopback d h { accessible := true, bytes := data } data.length).1 =
      Reply.count data.length ∧
    (session_read loopback
      (session_write loopback d h { accessible := true, bytes := data } data.length).2.1
      h data.length dst).1 = Reply.bytes data ∧
    (session_read loopback
      (session_write loopback d h { accessible := true, bytes := data } data.length).2.1
      h data.length dst).2.2 = { dst with bytes := data ++ dst.bytes.drop data.length } := by
  rw [loopback_write_eq d h s ctx data hs hc hA hlen]
  refine ⟨rfl, ?_⟩
  have hlt := Driver.find_lt hc
  have hr := loopback_read_eq
    { d.put s.device_id { ctx with buffer := data ++ ctx.buffer.drop data.length } with
      bus := d.bus ++ data,
      log := d.log ++ [BusOp.transfer
        { direction := Direction.HostToDevice, endpoint := EndpointSel.bulk ctx.bulk_out,
          length := data.length, timeout := d.timeout }] }
    h s { ctx with buffer := data ++ ctx.buffer.drop data.length } dst
    (by rw [← hs]; exact Driver.session_of_sessions_eq rfl h)
    (by
      have := Driver.find_put_self (d := d)
        { ctx with buffer := data ++ ctx.buffer.drop data.length } hlt
      rw [← this]; exact Driver.find_of_contexts_eq rfl _)
    hA (by simpa [hq] using hlen) hdst (by simpa [hq] using hroom)
  simpa [hq] using hr

section change
variable {σ : Type}

theorem transfer_out_change (hw : Hardware σ) (d : Driver σ) (id : Nat)
    (ctx : DeviceContext) (ep : EndpointSel) (src : UserBuffer) (n : Nat)
    (hf : d.find id = some ctx) : Change d (transfer_out hw d id ctx ep src n).2.1 := by
  unfold transfer_out stage_in
  split_ifs
  · exact Change.same rfl rfl rfl
  · exact Change.same rfl rfl rfl
  · simp only
    split <;>
      exact Change.updated id ctx _ hf (Driver.contexts_commit _ _ _ _) rfl rfl rfl (Or.inl rfl)

theorem transfer_in_change (hw : Hardware σ) (d : Driver σ) (id : Nat)
    (ctx : DeviceContext) (ep : EndpointSel) (dst : UserBuffer) (n : Nat)
    (hf : d.find id = some ctx) : Change d (transfer_in hw d id ctx ep dst n).2.1 := by
  unfold transfer_in
  split_ifs
  · exact Change.same rfl rfl rfl
  · simp only
    split
    · exact Change.updated id ctx _ hf (Driver.contexts_commit _ _ _ _) rfl rfl rfl (Or.inl rfl)
    · split <;>
        exact Change.updated id ctx _ hf (Driver.contexts_commit _ _ _ _) rfl rfl rfl
          (Or.inl rfl)

theorem with_active_context_change (d : Driver σ) (h : Nat) (user : UserBuffer)
    (body : Nat → DeviceContext → Reply × Driver σ × UserBuffer)
    (hb : ∀ id ctx, d.find id = some ctx → Change d (body id ctx).2.1) :
    Change d (with_active_context d h user body).2.1 := by
  unfold with_active_context
  split
  · exact Change.same rfl rfl rfl
  · split
    · exact Change.same rfl rfl rfl
    · rename_i ctx hc
      split
      · exact Change.same rfl rfl rfl
      · exact hb _ ctx hc

theorem step_change (hw : Hardware σ) (d : Driver σ) (op : Op) :
    Change d (step hw d op).2 := by
  cases op with
  | attach desc alloc_ok =>
    simp only [step, on_attach]
    split_ifs
    · exact Change.same rfl rfl rfl
    · exact Change.attached _ rfl rfl rfl rfl rfl
  | detach id =>
    simp only [step, on_detach]
    split
    · exact Change.same rfl rfl rfl
    · rename_i ctx hf
      split_ifs with h0
      · refine Change.unplugged id ctx hf h0 ?_ rfl rfl
        simp [List.set_set]
      · exact Change.updated id ctx _ hf rfl rfl rfl rfl (Or.inr ⟨rfl, h0⟩)
  | open_session id =>
    simp only [step, session_open]
    split
    · exact Change.same rfl rfl rfl
    · rename_i ctx hf
      split
      · exact Change.same rfl rfl rfl
      · rename_i hA
        exact Change.opened id ctx hf hA rfl rfl rfl
  | close_session h =>
    simp only [step, session_close]
    split
    · exact Change.same rfl rfl rfl
    · rename_i s hs
      split
      · rename_i hf
        exact Change.closed_stale h s hs hf rfl rfl rfl
      · rename_i ctx hf
        split_ifs with hd
        · refine Change.closed_last h s ctx hs hf hd.1 hd.2 ?_ rfl rfl
          simp [List.set_set]
        · exact Change.closed h s ctx hs hf hd rfl rfl rfl
  | read h n dst =>
    simp only [step, session_read]
    exact with_active_context_change d h dst _
      (fun id ctx hf => transfer_in_change hw d id ctx _ dst n hf)
  | write h src n =>
    simp only [step, session_write]
    exact with_active_context_change d h src _
      (fun id ctx hf => transfer_out_change hw d id ctx _ src n hf)
  | control h code dir data n =>
    simp only [step, session_control]
    refine with_active_context_change d h data _ (fun id ctx hf => ?_)
    cases dir
    · exact transfer_out_change hw d id ctx _ data n hf
    · exact transfer_in_change hw d id ctx _ data n hf

end change

section monotone
variable {σ : Type}

theorem entry_mono_refl (x : Option (Option DeviceContext)) : entry_mono x x := by
  match x with
  | none => trivial
  | some none => rfl
  | some (some c) => exact Or.inr ⟨c, rfl, id⟩

theorem entry_mono_trans {x y z : Option (Option DeviceContext)}
    (h1 : entry_mono x y) (h2 : entry_mono y z) : entry_mono x z := by
  match x with
  | none => trivial
  | some none =>
    have hy : y = some none := h1
    subst hy
    exact h2
  | some (some c) =>
    rcases h1 with hy | ⟨c', hy, hc'⟩
    · subst hy
      have hz : z = some none := h2
      exact Or.inl hz
    · subst hy
      rcases h2 with hz | ⟨c'', hz, hc''⟩
      · exact Or.inl hz
      · exact Or.inr ⟨c'', hz, fun h => hc'' (hc' h)⟩

theorem entry_mono_set (l : List (Option DeviceContext)) (i : Nat) (c : DeviceContext)
    (x : Option DeviceContext) (hl : l[i]? = some (some c))
    (hx : entry_mono (some (some c)) (some x)) (id : Nat) :
    entry_mono l[id]? (l.set i x)[id]? := by
  by_cases h : i = id
  · subst h
    rw [hl, List.getElem?_set_self (List.getElem?_eq_some.mp hl).1]
    exact hx
  · rw [List.getElem?_set_ne h]
    exact entry_mono_refl _

theorem change_mono {d e : Driver σ} (h : Change d e) (id : Nat) :
    entry_mono d.contexts[id]? e.contexts[id]? := by
  cases h with
  | same hc hs hr => rw [hc]; exact entry_mono_refl _
  | attached c h0 hA hc hs hr =>
    rw [hc]
    by_cases hlt : id < d.contexts.length
    · rw [List.getElem?_append_left hlt]; exact entry_mono_refl _
    · rw [List.getElem?_eq_none (Nat.le_of_not_lt hlt)]; trivial
  | updated i c c' hf hc hs hr href hst =>
    rw [hc]
    refine entry_mono_set _ i c _ (Driver.find_eq_some.mp hf) (Or.inr ⟨c', rfl, ?_⟩) id
    intro hR
    rcases hst with h1 | h1
    · rw [h1]; exact hR
    · exact h1.1
  | unplugged i c hf h0 hc hs hr =>
    rw [hc]
    exact entry_mono_set _ i c _ (Driver.find_eq_some.mp hf) (Or.inl rfl) id
  | opened i c hf hA hc hs hr =>
    rw [hc]
    exact entry_mono_set _ i c (some { c with refcount := c.refcount + 1 })
      (Driver.find_eq_some.mp hf) (Or.inr ⟨_, rfl, fun x => x⟩) id
  | closed_last h s c hh hf h1 hR hc hs hr =>
    rw [hc]
    exact entry_mono_set _ _ c _ (Driver.find_eq_some.mp hf) (Or.inl rfl) id
  | closed h s c hh hf hn hc hs hr =>
    rw [hc]
    exact entry_mono_set _ _ c (some { c with refcount := c.refcount - 1 })
      (Driver.find_eq_some.mp hf) (Or.inr ⟨_, rfl, fun x => x⟩) id
  | closed_stale h s hh hf hc hs hr => rw [hc]; exact entry_mono_refl _

theorem run_mono (hw : Hardware σ) (ops : List Op) (d : Driver σ) (id : Nat) :
    entry_mono d.contexts[id]? (run hw d ops).contexts[id]? := by
  induction ops generalizing d with
  | nil => exact entry_mono_refl _
  | cons op ops ih =>
    exact entry_mono_trans (change_mono (step_change hw d op) id) (ih (step hw d op).2)

/-- A context that is `Removed` is, after any further events, `Removed` or no
longer registered. -/
theorem run_removed (hw : Hardware σ) (ops : List Op) (d : Driver σ) (id : Nat)
    (c : DeviceContext) (hf : d.find id = some c) (hR : c.state = ContextState.Removed)
    (c' : DeviceContext) (hf' : (run hw d ops).find id = some c') :
    c'.state = ContextState.Removed := by
  have h := run_mono hw ops d id
  rw [Driver.find_eq_some.mp hf, Driver.find_eq_some.mp hf'] at h
  rcases h with h | ⟨c'', h, hc⟩
  · cases h
  · cases h
    exact hc hR

/-- A cleared registry entry stays cleared. -/
theorem run_cleared (hw : Hardware σ) (ops : List Op) (d : Driver σ) (id : Nat)
    (h : d.contexts[id]? = some none) : (run hw d ops).contexts[id]? = some none := by
  have hm := run_mono hw ops d id
  rw [h] at hm
  exact hm

theorem find_none_of_cleared {d : Driver σ} {id : Nat} (h : d.contexts[id]? = some none) :
    d.find id = none := by
  unfold Driver.find
  rw [h]

/-- On a context that is `Removed` or no longer registered, `read`, `write` and
`control` fail with `Gone` and leave the driver as it was. -/
theorem io_on_removed (hw : Hardware σ) (d : Driver σ) (h : Nat) (s : SessionHandle)
    (hs : d.session h = some s)
    (hR : ∀ c, d.find s.device_id = some c → c.state = ContextState.Removed)
    (op : Op) (hop : op.is_io_on h = true) :
    step hw d op = (Reply.failed Error.Gone, d) := by
  have key : ∀ (user : UserBuffer) (body : Nat → DeviceContext → Reply × Driver σ × UserBuffer),
      with_active_context d h user body = (Reply.failed Error.Gone, d, user) := by
    intro user body
    unfold with_active_context
    rw [hs]
    simp only
    cases hf : d.find s.device_id with
    | none => rfl
    | some c => simp only [hR c hf]
  cases op with
  | attach desc alloc_ok => simp [Op.is_io_on] at hop
  | detach id => simp [Op.is_io_on] at hop
  | open_session id => simp [Op.is_io_on] at hop
  | close_session k => simp [Op.is_io_on] at hop
  | read k n dst =>
    simp only [Op.is_io_on, beq_iff_eq] at hop
    subst hop
    simp only [step, session_read, key]
  | write k src n =>
    simp only [Op.is_io_on, beq_iff_eq] at hop
    subst hop
    simp only [step, session_write, key]
  | control k code dir data n =>
    simp only [Op.is_io_on, beq_iff_eq] at hop
    subst hop
    simp only [step, session_control, key]

end monotone

/-- C5: once a context's state is `Removed`, after any sequence of events it is
still `Removed` unless it is no longer registered; and every `read`, `write`
or `control` made then on a session bound to it fails with `Gone`, leaves the
driver state as it was and adds nothing to the bus log. -/
theorem removed_is_final_and_fenced {σ : Type} (hw : Hardware σ) (d : Driver σ) (id : Nat)
    (ctx : DeviceContext) (hf : d.find id = some ctx)
    (hR : ctx.state = ContextState.Removed) (ops : List Op) :
    (∀ c, (run hw d ops).find id = some c → c.state = ContextState.Removed) ∧
    (∀ h s op, (run hw d ops).session h = some s → s.device_id = id →
      op.is_io_on h = true →
      step hw (run hw d ops) op = (Reply.failed Error.Gone, run hw d ops) ∧
      (step hw (run hw d ops) op).2.log = (run hw d ops).log) := by
  have h1 : ∀ c, (run hw d ops).find id = some c → c.state = ContextState.Removed :=
    fun c hc => run_removed hw ops d id ctx hf hR c hc
  refine ⟨h1, ?_⟩
  intro h s op hs hid hop
  have h2 := io_on_removed hw (run hw d ops) h s hs (by rw [hid]; exact h1) op hop
  exact ⟨h2, by rw [h2]⟩

section invariant
variable {σ : Type}

theorem open_sessions_append (l : List SessionHandle) (i id : Nat) :
    open_sessions (l ++ [{ device_id := i, is_open := true }]) id =
      open_sessions l id + (if i = id then 1 else 0) := by
  simp [open_sessions, List.countP_append, List.countP_cons]

theorem Driver.session_eq_some {d : Driver σ} {h : Nat} {s : SessionHandle}
    (hs : d.session h = some s) : d.sessions[h]? = some s ∧ s.is_open = true := by
  unfold Driver.session at hs
  split at hs
  · rename_i x hx
    split_ifs at hs with ho
    cases hs
    exact ⟨hx, ho⟩
  · cases hs

theorem open_sessions_close (l : List SessionHandle) (h : Nat) (s : SessionHandle)
    (hl : l[h]? = some s) (ho : s.is_open = true) (id : Nat) :
    open_sessions (l.set h { s with is_open := false }) id =
      open_sessions l id - (if s.device_id = id then 1 else 0) := by
  obtain ⟨hlt, hget⟩ := List.getElem?_eq_some.mp hl
  unfold open_sessions
  rw [List.countP_set _ _ _ _ hlt, hget]
  simp [ho]

theorem open_sessions_pos (l : List SessionHandle) (h : Nat) (s : SessionHandle)
    (hl : l[h]? = some s) (ho : s.is_open = true) : 0 < open_sessions l s.device_id := by
  obtain ⟨hlt, hget⟩ := List.getElem?_eq_some.mp hl
  unfold open_sessions
  rw [List.countP_pos_iff]
  exact ⟨s, by rw [← hget]; exact List.getElem_mem hlt, by simp [ho]⟩

theorem find_set_ne {d e : Driver σ} {i id : Nat} {x : Option DeviceContext}
    (hc : e.contexts = d.contexts.set i x) (hne : i ≠ id) : e.find id = d.find id := by
  unfold Driver.find
  rw [hc, List.getElem?_set_ne hne]

theorem find_set_self {d e : Driver σ} {i : Nat} {x : Option DeviceContext}
    (hc : e.contexts = d.contexts.set i x) (hlt : i < d.contexts.length) :
    e.find i = x := by
  unfold Driver.find
  rw [hc, List.getElem?_set_self hlt]
  cases x <;> rfl

theorem wf_init (bus : σ) (t : Nat) : (Driver.init bus t).wf where
  refcount_eq := by intro id ctx h; simp [Driver.find, Driver.init] at h
  live := by intro id ctx h; simp [Driver.find, Driver.init] at h
  idle := by intro id _; simp [open_sessions, Driver.init]
  released_iff := by intro id; simp [Driver.init]
  released_once := by simp [Driver.init]

/-- The invariant survives replacing a registered context by one that counts the open
sessions and is not both unreferenced and `Removed`. -/
theorem wf_set_some {d e : Driver σ} (hw : d.wf) (i : Nat) (c c' : DeviceContext)
    (hf : d.find i = some c) (hc : e.contexts = d.contexts.set i (some c'))
    (hcount : c'.refcount = open_sessions e.sessions i)
    (hother : ∀ id, i ≠ id → open_sessions e.sessions id = open_sessions d.sessions id)
    (hlive : ¬ (c'.refcount = 0 ∧ c'.state = ContextState.Removed))
    (hr : e.released = d.released) : e.wf := by
  have hlt := Driver.find_lt hf
  have hself : e.find i = some c' := find_set_self hc hlt
  refine ⟨?_, ?_, ?_, ?_, ?_⟩
  · intro id ctx h
    by_cases hi : i = id
    · subst hi
      rw [hself] at h
      cases h
      exact hcount
    · rw [find_set_ne hc hi] at h
      rw [hother id hi]
      exact hw.refcount_eq id ctx h
  · intro id ctx h
    by_cases hi : i = id
    · subst hi
      rw [hself] at h
      cases h
      exact hlive
    · rw [find_set_ne hc hi] at h
      exact hw.live id ctx h
  · intro id h
    by_cases hi : i = id
    · subst hi
      rw [hself] at h
      cases h
    · rw [find_set_ne hc hi] at h
      rw [hother id hi]
      exact hw.idle id h
  · intro id
    rw [hr, hw.released_iff id, hc]
    by_cases hi : i = id
    · subst hi
      rw [List.getElem?_set_self hlt, Driver.find_eq_some.mp hf]
      simp
    · rw [List.getElem?_set_ne hi]
  · rw [hr]
    exact hw.released_once

/-- The invariant survives clearing a registered context that no open session is
bound to any more, when the release is recorded. -/
theorem wf_set_none {d e : Driver σ} (hw : d.wf) (i : Nat) (c : DeviceContext)
    (hf : d.find i = some c) (hc : e.contexts = d.contexts.set i none)
    (hcount : open_sessions e.sessions i = 0)
    (hother : ∀ id, i ≠ id → open_sessions e.sessions id = open_sessions d.sessions id)
    (hr : e.released = d.released ++ [i]) : e.wf := by
  have hlt := Driver.find_lt hf
  have hself : e.find i = none := find_set_self hc hlt
  have hnot : i ∉ d.released := by
    rw [hw.released_iff i, Driver.find_eq_some.mp hf]
    simp
  refine ⟨?_, ?_, ?_, ?_, ?_⟩
  · intro id ctx h
    by_cases hi : i = id
    · subst hi
      rw [hself] at h
      cases h
    · rw [find_set_ne hc hi] at h
      rw [hother id hi]
      exact hw.refcount_eq id ctx h
  · intro id ctx h
    by_cases hi : i = id
    · subst hi
      rw [hself] at h
      cases h
    · rw [find_set_ne hc hi] at h
      exact hw.live id ctx h
  · intro id h
    by_cases hi : i = id
    · subst hi
      exact hcount
    · rw [find_set_ne hc hi] at h
      rw [hother id hi]
      exact hw.idle id h
  · intro id
    rw [hr, List.mem_append, hw.released_iff id, hc]
    by_cases hi : i = id
    · subst hi
      rw [List.getElem?_set_self hlt]
      simp
    · rw [List.getElem?_set_ne hi]
      simp only [List.mem_singleton, or_iff_left_iff_imp]
      intro h
      exact absurd h.symm hi
  · rw [hr]
    exact List.Nodup.append hw.released_once (List.nodup_singleton i)
      (by
        intro x hx hx'
        rw [List.mem_singleton] at hx'
        subst hx'
        exact hnot hx)

theorem wf_of_eq {d e : Driver σ} (hw : d.wf) (hc : e.contexts = d.contexts)
    (hs : e.sessions = d.sessions) (hr : e.released = d.released) : e.wf := by
  have hfind : ∀ id, e.find id = d.find id := Driver.find_of_contexts_eq hc
  refine ⟨?_, ?_, ?_, ?_, ?_⟩
  · intro id ctx h
    rw [hfind] at h
    rw [hs]
    exact hw.refcount_eq id ctx h
  · intro id ctx h
    rw [hfind] at h
    exact hw.live id ctx h
  · intro id h
    rw [hfind] at h
    rw [hs]
    exact hw.idle id h
  · intro id
    rw [hr, hc]
    exact hw.released_iff id
  · rw [hr]
    exact hw.released_once

theorem wf_attached {d e : Driver σ} (hw : d.wf) (c : DeviceContext)
    (h0 : c.refcount = 0) (hA : c.state = ContextState.Active)
    (hc : e.contexts = d.contexts ++ [some c]) (hs : e.sessions = d.sessions)
    (hr : e.released = d.released) : e.wf := by
  have hold : ∀ id, id < d.contexts.length → e.contexts[id]? = d.contexts[id]? := by
    intro id hlt
    rw [hc, List.getElem?_append_left hlt]
  have hnew : e.contexts[d.contexts.length]? = some (some c) := by
    rw [hc, List.getElem?_append_right (Nat.le_refl _)]
    simp
  have hfar : ∀ id, d.contexts.length < id → e.contexts[id]? = none := by
    intro id hlt
    rw [hc]
    apply List.getElem?_eq_none
    simp only [List.length_append, List.length_singleton]
    omega
  have hdnone : ∀ id, d.contexts.length ≤ id → d.find id = none := by
    intro id hle
    unfold Driver.find
    rw [List.getElem?_eq_none hle]
  have hfind : ∀ id, id ≠ d.contexts.length → e.find id = d.find id := by
    intro id hne
    rcases Nat.lt_or_gt_of_ne hne with hlt | hgt
    · unfold Driver.find
      rw [hold id hlt]
    · rw [hdnone id (Nat.le_of_lt hgt)]
      unfold Driver.find
      rw [hfar id hgt]
  refine ⟨?_, ?_, ?_, ?_, ?_⟩
  · intro id ctx h
    rw [hs]
    by_cases hi : id = d.contexts.length
    · subst hi
      rw [Driver.find_eq_some, hnew] at h
      cases h
      rw [h0, hw.idle _ (hdnone _ (Nat.le_refl _))]
    · rw [hfind id hi] at h
      exact hw.refcount_eq id ctx h
  · intro id ctx h
    by_cases hi : id = d.contexts.length
    · subst hi
      rw [Driver.find_eq_some, hnew] at h
      cases h
      intro hb
      rw [hA] at hb
      cases hb.2
    · rw [hfind id hi] at h
      exact hw.live id ctx h
  · intro id h
    rw [hs]
    by_cases hi : id = d.contexts.length
    · exact hw.idle id (hdnone id (Nat.le_of_eq hi.symm))
    · rw [hfind id hi] at h
      exact hw.idle id h
  · intro id
    rw [hr, hw.released_iff id]
    rcases Nat.lt_trichotomy id d.contexts.length with hlt | heq | hgt
    · rw [hold id hlt]
    · subst heq
      rw [hnew, List.getElem?_eq_none (Nat.le_refl _)]
      simp
    · rw [hfar id hgt, List.getElem?_eq_none (Nat.le_of_lt hgt)]
  · rw [hr]
    exact hw.released_once

/-- Every event keeps the invariant. -/
theorem change_wf {d e : Driver σ} (h : Change d e) (hw : d.wf) : e.wf := by
  cases h with
  | same hc hs hr => exact wf_of_eq hw hc hs hr
  | attached c h0 hA hc hs hr => exact wf_attached hw c h0 hA hc hs hr
  | updated i c c' hf hc hs hr href hst =>
    refine wf_set_some hw i c c' hf hc ?_ (fun id _ => by rw [hs]) ?_ hr
    · rw [hs, href]
      exact hw.refcount_eq i c hf
    · intro hb
      rcases hst with h1 | h1
      · exact hw.live i c hf ⟨by rw [← href]; exact hb.1, by rw [← h1]; exact hb.2⟩
      · exact h1.2 (by rw [← href]; exact hb.1)
  | unplugged i c hf h0 hc hs hr =>
    refine wf_set_none hw i c hf hc ?_ (fun id _ => by rw [hs]) hr
    rw [hs, ← hw.refcount_eq i c hf]
    exact h0
  | opened i c hf hA hc hs hr =>
    refine wf_set_some hw i c { c with refcount := c.refcount + 1 } hf hc ?_ ?_ ?_ hr
    · rw [hs, open_sessions_append, if_pos rfl, ← hw.refcount_eq i c hf]
    · intro id hne
      rw [hs, open_sessions_append, if_neg hne, Nat.add_zero]
    · intro hb
      exact Nat.succ_ne_zero _ hb.1
  | closed_last h s c hh hf h1 hR hc hs hr =>
    obtain ⟨hl, ho⟩ := Driver.session_eq_some hh
    refine wf_set_none hw s.device_id c hf hc ?_ ?_ hr
    · rw [hs, open_sessions_close _ h s hl ho, if_pos rfl,
        ← hw.refcount_eq s.device_id c hf]
      exact h1
    · intro id hne
      rw [hs, open_sessions_close _ h s hl ho, if_neg hne, Nat.sub_zero]
  | closed h s c hh hf hn hc hs hr =>
    obtain ⟨hl, ho⟩ := Driver.session_eq_some hh
    refine wf_set_some hw s.device_id c { c with refcount := c.refcount - 1 } hf hc ?_ ?_ hn hr
    · rw [hs, open_sessions_close _ h s hl ho, if_pos rfl,
        ← hw.refcount_eq s.device_id c hf]
    · intro id hne
      rw [hs, open_sessions_close _ h s hl ho, if_neg hne, Nat.sub_zero]
  | closed_stale h s hh hf hc hs hr =>
    obtain ⟨hl, ho⟩ := Driver.session_eq_some hh
    have hpos := open_sessions_pos _ h s hl ho
    rw [hw.idle s.device_id hf] at hpos
    exact absurd hpos (Nat.lt_irrefl 0)

theorem run_wf (hw : Hardware σ) (ops : List Op) (d : Driver σ) (h : d.wf) :
    (run hw d ops).wf := by
  induction ops generalizing d with
  | nil => exact h
  | cons op ops ih => exact ih (step hw d op).2 (change_wf (step_change hw d op) h)

theorem session_close_last (d : Driver σ) (h : Nat) (s : SessionHandle)
    (ctx : DeviceContext) (hs : d.session h = some s) (hf : d.find s.device_id = some ctx)
    (h1 : ctx.refcount - 1 = 0) (hR : ctx.state = ContextState.Removed) :
    (session_close d h).2.contexts = d.contexts.set s.device_id none ∧
    (session_close d h).2.released = d.released ++ [s.device_id] := by
  have hf1 : Driver.find
      { d with sessions := d.sessions.set h { s with is_open := false } } s.device_id =
        some ctx := hf
  simp only [session_close, hs, hf1]
  rw [if_pos ⟨h1, hR⟩]
  simp [List.set_set]

theorem session_close_other (d : Driver σ) (h : Nat) (s : SessionHandle)
    (ctx : DeviceContext) (hs : d.session h = some s) (hf : d.find s.device_id = some ctx)
    (hn : ¬ (ctx.refcount - 1 = 0 ∧ ctx.state = ContextState.Removed)) :
    (session_close d h).2.contexts =
      d.contexts.set s.device_id (some { ctx with refcount := ctx.refcount - 1 }) ∧
    (session_close d h).2.released = d.released := by
  have hf1 : Driver.find
      { d with sessions := d.sessions.set h { s with is_open := false } } s.device_id =
        some ctx := hf
  simp only [session_close, hs, hf1]
  rw [if_neg hn]
  simp

theorem session_open_cleared (d : Driver σ) (id : Nat) (h : d.contexts[id]? = some none) :
    (session_open d id).1 = Reply.failed Error.NotFound := by
  simp only [session_open, find_none_of_cleared h]

theorem transfer_out_released (hw : Hardware σ) (d : Driver σ) (id : Nat)
    (ctx : DeviceContext) (ep : EndpointSel) (src : UserBuffer) (n : Nat) :
    (transfer_out hw d id ctx ep src n).2.1.released = d.released := by
  unfold transfer_out
  split
  · rfl
  · simp only
    split <;> rfl

theorem transfer_in_released (hw : Hardware σ) (d : Driver σ) (id : Nat)
    (ctx : DeviceContext) (ep : EndpointSel) (dst : UserBuffer) (n : Nat) :
    (transfer_in hw d id ctx ep dst n).2.1.released = d.released := by
  unfold transfer_in
  split_ifs
  · rfl
  · simp only
    split
    · rfl
    · split <;> rfl

theorem with_active_context_released (d : Driver σ) (h : Nat) (user : UserBuffer)
    (body : Nat → DeviceContext → Reply × Driver σ × UserBuffer)
    (hb : ∀ id ctx, (body id ctx).2.1.released = d.released) :
    (with_active_context d h user body).2.1.released = d.released := by
  unfold with_active_context
  split
  · rfl
  · split
    · rfl
    · split
      · rfl
      · exact hb _ _

/-- An event records a release only for a context that is `Removed`, or that the
event itself detaches. -/
theorem release_cause (hw : Hardware σ) (d : Driver σ) (op : Op) (id : Nat)
    (hnot : id ∉ d.released) (hin : id ∈ (step hw d op).2.released) :
    op = Op.detach id ∨ ∃ c, d.find id = some c ∧ c.state = ContextState.Removed := by
  cases op with
  | attach desc alloc_ok =>
    have : (step hw d (Op.attach desc alloc_ok)).2.released = d.released := by
      simp only [step, on_attach]
      split_ifs <;> rfl
    rw [this] at hin
    exact absurd hin hnot
  | detach i =>
    simp only [step, on_detach] at hin
    split at hin
    · exact absurd hin hnot
    · split_ifs at hin
      · simp only [Driver.released_destroy, Driver.released_put, List.mem_append,
          List.mem_singleton] at hin
        rcases hin with hin | hin
        · exact absurd hin hnot
        · rw [hin]
          exact Or.inl rfl
      · exact absurd hin hnot
  | open_session i =>
    have : (step hw d (Op.open_session i)).2.released = d.released := by
      simp only [step, session_open]
      split
      · rfl
      · split <;> rfl
    rw [this] at hin
    exact absurd hin hnot
  | close_session k =>
    simp only [step, session_close] at hin
    split at hin
    · exact absurd hin hnot
    · rename_i s hs
      split at hin
      · exact absurd hin hnot
      · rename_i c hf
        split_ifs at hin with hd
        · simp only [Driver.released_destroy, Driver.released_put, List.mem_append,
            List.mem_singleton] at hin
          rcases hin with hin | hin
          · exact absurd hin hnot
          · rw [hin]
            exact Or.inr ⟨c, hf, hd.2⟩
        · exact absurd hin hnot
  | read k n dst =>
    have : (step hw d (Op.read k n dst)).2.released = d.released := by
      simp only [step, session_read]
      exact with_active_context_released d k dst _
        (fun i c => transfer_in_released hw d i c _ dst n)
    rw [this] at hin
    exact absurd hin hnot
  | write k src n =>
    have : (step hw d (Op.write k src n)).2.released = d.released := by
      simp only [step, session_write]
      exact with_active_context_released d k src _
        (fun i c => transfer_out_released hw d i c _ src n)
    rw [this] at hin
    exact absurd hin hnot
  | control k code dir data n =>
    have : (step hw d (Op.control k code dir data n)).2.released = d.released := by
      simp only [step, session_control]
      refine with_active_context_released d k data _ (fun i c => ?_)
      cases dir
      · exact transfer_out_released hw d i c _ data n
      · exact transfer_in_released hw d i c _ data n
    rw [this] at hin
    exact absurd hin hnot

end invariant

/-- C7: in every state the driver reaches from load, each registered context
counts its open sessions and is not both unreferenced and `Removed`, and the
release record holds exactly the cleared registry entries, none twice; an event
records a release only when no open session is left on the context and the
context is `Removed` or is being detached by that event.  For an open
session on a registered context: if it is the last one and the context is
`Removed`, `close` clears the context and records its release, which was not
recorded before; from then on the release stays recorded exactly once and
`open` of that device id fails with `NotFound`.  If the context is `Active` or
other sessions remain, `close` only decrements the count and releases
nothing. -/
theorem release_exactly_once {σ : Type} (hw : Hardware σ) (bus0 : σ) (t : Nat)
    (ops : List Op) (d : Driver σ) (hd : d = run hw (Driver.init bus0 t) ops)
    (h : Nat) (s : SessionHandle) (ctx : DeviceContext)
    (hs : d.session h = some s) (hf : d.find s.device_id = some ctx) :
    (ctx.refcount = open_sessions d.sessions s.device_id ∧
     d.released.Nodup ∧
     (∀ id, id ∈ d.released ↔ d.contexts[id]? = some none) ∧
     (∀ id c, d.find id = some c → ¬ (c.refcount = 0 ∧ c.state = ContextState.Removed)) ∧
     (∀ id, id ∈ d.released → d.find id = none ∧ open_sessions d.sessions id = 0) ∧
     (∀ op id, id ∉ d.released → id ∈ (step hw d op).2.released →
        open_sessions (step hw d op).2.sessions id = 0 ∧
        (op = Op.detach id ∨
         ∃ c, d.find id = some c ∧ c.state = ContextState.Removed))) ∧
    (open_sessions d.sessions s.device_id = 1 ∧ ctx.state = ContextState.Removed →
      (session_close d h).2.find s.device_id = none ∧
      s.device_id ∉ d.released ∧
      (session_close d h).2.released = d.released ++ [s.device_id] ∧
      ∀ later : List Op,
        (run hw (session_close d h).2 later).released.count s.device_id = 1 ∧
        (session_open (run hw (session_close d h).2 later) s.device_id).1 =
          Reply.failed Error.NotFound) ∧
    (ctx.state = ContextState.Active ∨ 1 < open_sessions d.sessions s.device_id →
      (session_close d h).2.find s.device_id =
        some { ctx with refcount := ctx.refcount - 1 } ∧
      (session_close d h).2.released = d.released) := by
  have hwf : d.wf := by
    rw [hd]
    exact run_wf hw ops _ (wf_init bus0 t)
  have hcount := hwf.refcount_eq s.device_id ctx hf
  have hlt := Driver.find_lt hf
  have hrel : ∀ (e : Driver σ), e.wf → ∀ id, id ∈ e.released →
      e.find id = none ∧ open_sessions e.sessions id = 0 := by
    intro e he id hid
    have hnone := find_none_of_cleared ((he.released_iff id).mp hid)
    exact ⟨hnone, he.idle id hnone⟩
  refine ⟨⟨hcount, hwf.released_once, hwf.released_iff, hwf.live, hrel d hwf, ?_⟩, ?_, ?_⟩
  · intro op id hnot hin
    exact ⟨(hrel _ (change_wf (step_change hw d op) hwf) id hin).2,
      release_cause hw d op id hnot hin⟩
  · rintro ⟨hone, hR⟩
    have h1 : ctx.refcount - 1 = 0 := by rw [hcount, hone]
    obtain ⟨hc, hr⟩ := session_close_last d h s ctx hs hf h1 hR
    have hcl : (session_close d h).2.contexts[s.device_id]? = some none := by
      rw [hc, List.getElem?_set_self hlt]
    have hnot : s.device_id ∉ d.released := by
      rw [hwf.released_iff, Driver.find_eq_some.mp hf]
      simp
    have hwf' : (session_close d h).2.wf :=
      change_wf (step_change hw d (Op.close_session h)) hwf
    refine ⟨find_none_of_cleared hcl, hnot, hr, ?_⟩
    intro later
    have hcl' := run_cleared hw later _ _ hcl
    have hwf'' := run_wf hw later _ hwf'
    exact ⟨List.count_eq_one_of_mem hwf''.released_once ((hwf''.released_iff _).mpr hcl'),
      session_open_cleared _ _ hcl'⟩
  · intro hor
    have hn : ¬ (ctx.refcount - 1 = 0 ∧ ctx.state = ContextState.Removed) := by
      rintro ⟨h1, hR⟩
      rcases hor with hA | hmany
      · rw [hA] at hR
        cases hR
      · rw [hcount] at h1
        omega
    obtain ⟨hc, hr⟩ := session_close_other d h s ctx hs hf hn
    exact ⟨find_set_self hc hlt, hr⟩

/-- On the halted device a read stalls: the bus log gets the transfer and then one
clear-halt, and the error surfaced is `Stalled` when the clear-halt goes
through and `DeviceUnresponsive` when it does not. -/
theorem halted_read_recovers :
    (execute halted true [] [0, 0]
      { direction := Direction.DeviceToHost, endpoint := EndpointSel.bulk 0x81, length := 2,
        timeout := 1000 }).status = Status.failed Error.Stalled ∧
    (execute halted false [] [0, 0]
      { direction := Direction.DeviceToHost, endpoint := EndpointSel.bulk 0x81, length := 2,
        timeout := 1000 }).status = Status.failed Error.DeviceUnresponsive ∧
    (execute halted true [] [0, 0]
      { direction := Direction.DeviceToHost, endpoint := EndpointSel.bulk 0x81, length := 2,
        timeout := 1000 }).log =
      [BusOp.transfer
         { direction := Direction.DeviceToHost, endpoint := EndpointSel.bulk 0x81, length := 2,
           timeout := 1000 },
       BusOp.clear_halt (EndpointSel.bulk 0x81)] := by
  decide

/-! ## The theorems above at concrete states -/

/-- Writing 1, 2, 3 to the opened loopback device and reading three bytes back
gives 1, 2, 3. -/
theorem write_then_loopback_read_witness :
    (demo_active.session 0 = some { device_id := 0, is_open := true } ∧
     demo_active.find 0 = some demo_context ∧ [(1 : Byte), 2, 3].length ≤ demo_context.capacity) ∧
    (session_write loopback demo_active 0 { accessible := true, bytes := [1, 2, 3] } 3).1 =
      Reply.count 3 ∧
    (session_read loopback
      (session_write loopback demo_active 0 { accessible := true, bytes := [1, 2, 3] } 3).2.1
      0 3 { accessible := true, bytes := [9, 9, 9, 9] }).1 = Reply.bytes [1, 2, 3] ∧
    (session_read loopback
      (session_write loopback demo_active 0 { accessible := true, bytes := [1, 2, 3] } 3).2.1
      0 3 { accessible := true, bytes := [9, 9, 9, 9] }).2.2 =
      { accessible := true, bytes := [1, 2, 3, 9] } :=
  ⟨⟨rfl, rfl, by decide⟩,
   write_then_loopback_read demo_active 0 { device_id := 0, is_open := true } demo_context
    [1, 2, 3] { accessible := true, bytes := [9, 9, 9, 9] } rfl rfl rfl rfl (by decide) rfl
    (by decide)⟩

/-- Staging five bytes through a four-byte buffer is rejected and changes nothing. -/
theorem oversize_staging_rejected_witness :
    demo_context.capacity < 5 ∧
    stage_in demo_context { accessible := true, bytes := [1, 2, 3, 4, 5] } 5 =
      (Status.failed Error.InvalidLength, demo_context,
       { accessible := true, bytes := [1, 2, 3, 4, 5] }) ∧
    stage_out demo_context { accessible := true, bytes := [1, 2, 3, 4, 5] } 5 =
      (Status.failed Error.InvalidLength, demo_context,
       { accessible := true, bytes := [1, 2, 3, 4, 5] }) ∧
    transfer_out loopback demo_active 0 demo_context (EndpointSel.bulk 2)
        { accessible := true, bytes := [1, 2, 3, 4, 5] } 5 =
      (Reply.failed Error.InvalidLength, demo_active,
       { accessible := true, bytes := [1, 2, 3, 4, 5] }) ∧
    transfer_in loopback demo_active 0 demo_context (EndpointSel.bulk 2)
        { accessible := true, bytes := [1, 2, 3, 4, 5] } 5 =
      (Reply.failed Error.InvalidLength, demo_active,
       { accessible := true, bytes := [1, 2, 3, 4, 5] }) :=
  ⟨by decide,
   oversize_staging_rejected loopback demo_active 0 (EndpointSel.bulk 2) demo_context
    { accessible := true, bytes := [1, 2, 3, 4, 5] } 5 (by decide)⟩

/-- After the detach, the context of the still-open session is `Removed`, stays so
when another `open` is tried, and a `read` on the session fails with `Gone`
without touching the driver. -/
theorem removed_is_final_and_fenced_witness :
    demo_removed.find 0 = some { demo_context with state := ContextState.Removed } ∧
    (run loopback demo_removed [Op.open_session 0]).find 0 =
      some { demo_context with state := ContextState.Removed } ∧
    step loopback demo_removed (Op.read 0 2 { accessible := true, bytes := [0, 0] }) =
      (Reply.failed Error.Gone, demo_removed) :=
  ⟨rfl, rfl,
   ((removed_is_final_and_fenced loopback demo_removed 0
      { demo_context with state := ContextState.Removed } rfl rfl []).2 0
      { device_id := 0, is_open := true }
      (Op.read 0 2 { accessible := true, bytes := [0, 0] }) rfl rfl rfl).1⟩

/-- Closing the last session of the detached device clears its context, records
one release, and makes a later `open` fail with `NotFound`; closing one of two
sessions of an attached device only drops the count to one. -/
theorem release_exactly_once_witness :
    ((session_close demo_removed 0).2.find 0 = none ∧
     (session_close demo_removed 0).2.released = [0] ∧
     (session_open (session_close demo_removed 0).2 0).1 = Reply.failed Error.NotFound) ∧
    ((session_close demo_shared 1).2.find 0 = some demo_context ∧
     (session_close demo_shared 1).2.released = []) :=
  ⟨(fun h => ⟨h.1, h.2.2.1, (h.2.2.2 []).2⟩)
    ((release_exactly_once loopback [] 1000 demo_removed_ops demo_removed rfl 0
      { device_id := 0, is_open := true }
      { demo_context with state := ContextState.Removed } rfl rfl).2.1 ⟨rfl, rfl⟩),
   (release_exactly_once loopback [] 1000 demo_shared_ops demo_shared rfl 1
      { device_id := 0, is_open := true } { demo_context with refcount := 2 } rfl rfl).2.2
      (Or.inl rfl)⟩

end CAENUSBdrvB
